import Mathlib

/-!
Verification of the portfolio HTTP service in `src/fastapi_challenge/main.py`.

The handlers are pure functions of the request data, so we embed them
directly: each Python handler becomes a Lean function on a record of the
request fields it reads.  Python-specific semantics (truthiness of
`Optional[str]`, `x or default`, `s.split(",")`, substring membership
`"bot" in s.lower()`) are modelled by small helper definitions.
-/

/-- Python truthiness of an `Optional[str]` value: `None` and `""` are falsy,
every non-empty string is truthy. -/
def optStrTruthy : Option String → Bool
  | none => false
  | some s => !(s == "")

/-- Python `x or default` for `x : Optional[str]`: the string itself when it
is truthy (present and non-empty), otherwise the default. -/
def pyOr (x : Option String) (d : String) : String :=
  match x with
  | none => d
  | some s => if s == "" then d else s

/-- `p.isPrefixOf l`-style check followed by a scan: Boolean substring
membership on character lists, the model of Python `pat in s`. -/
def listHasSubstr (p : List Char) : List Char → Bool
  | [] => p.isEmpty
  | c :: rest => p.isPrefixOf (c :: rest) || listHasSubstr p rest

/-- Python `pat in s` on strings. -/
def strContainsSubstr (s pat : String) : Bool :=
  listHasSubstr pat.toList s.toList

/-- Python `s.lower()`: per-character lowercasing (structural recursion on
the character list, so that it evaluates by kernel reduction). -/
def strToLower (s : String) : String :=
  String.mk (s.data.map Char.toLower)

/-- Split a character list on a separator character: the maximal (possibly
empty) chunks between occurrences of the separator. -/
def splitOnChar (sep : Char) : List Char → List (List Char)
  | [] => [[]]
  | c :: rest =>
      match splitOnChar sep rest with
      | [] => [[]]
      | chunk :: chunks =>
          if c == sep then [] :: chunk :: chunks
          else (c :: chunk) :: chunks

/-- Python `s.split(",")`: the ordered sequence of non-trimmed substrings
between commas (`"".split(",") = [""]` in Python, matching this model). -/
def pySplitComma (s : String) : List String :=
  (splitOnChar ',' s.data).map String.mk

/-- The query parameters and `User-Agent` header read by `GET /portfolio`
(`submit_details_get` in `main.py`).  Each query parameter is
`Optional[str]` defaulting to `None`; `user_agent` is `Header(None)`. -/
structure GetRequest where
  name : Option String := none
  school : Option String := none
  major : Option String := none
  minor : Option String := none
  hobbies : Option String := none
  linkedin : Option String := none
  github : Option String := none
  user_agent : Option String := none
deriving DecidableEq

/-- The `data` object of the success envelope returned by `GET /portfolio`. -/
structure PortfolioData where
  name : String
  school : String
  major : String
  minor : String
  hobbies : List String
  linkedin : String
  github : String
deriving DecidableEq

/-- Outcome of the `GET /portfolio` handler: an `HTTPException` with status
and detail, or a JSON envelope `{message, data}` plus the response headers
set explicitly by the handler. -/
inductive GetResult where
  | error (status : Nat) (detail : String)
  | success (message : String) (data : PortfolioData)
      (headers : List (String × String))
deriving DecidableEq

/-- The `data` of a success result, if any. -/
def GetResult.getData : GetResult → Option PortfolioData
  | .success _ d _ => some d
  | .error _ _ => none

/-- Handler of `GET /portfolio` (`submit_details_get`, main.py lines 55-86):
rejects bot user agents with 403, splits `hobbies` on commas when truthy,
substitutes placeholders via Python `or`, and sets `X-Robots-Tag`. -/
def submit_details_get (r : GetRequest) : GetResult :=
  if optStrTruthy r.user_agent &&
      strContainsSubstr (strToLower (r.user_agent.getD "")) "bot" then
    .error 403 "Bots are not allowed"
  else
    let hobbies_list :=
      if optStrTruthy r.hobbies then pySplitComma (r.hobbies.getD "") else []
    .success "GET request received successfully!"
      { name := pyOr r.name "Anonymous"
        school := pyOr r.school "Not Specified"
        major := pyOr r.major "Not Specified"
        minor := pyOr r.minor "Not Specified"
        hobbies := hobbies_list
        linkedin := pyOr r.linkedin "Not Provided"
        github := pyOr r.github "Not Provided" }
      [("X-Robots-Tag", "noindex, nofollow")]

/-- The request body of `POST /portfolio`: the pydantic `Portfolio` model,
all fields optional with default `None`. -/
structure Portfolio where
  name : Option String := none
  school : Option String := none
  major : Option String := none
  minor : Option String := none
  hobbies : Option (List String) := none
  linkedin : Option String := none
  github : Option String := none
deriving DecidableEq

/-- Outcome of the `POST /portfolio` handler: an `HTTPException` or the
JSON envelope `{message, data}` echoing the submitted record. -/
inductive PostResult where
  | error (status : Nat) (detail : String)
  | success (message : String) (data : Portfolio)
deriving DecidableEq

/-- Handler of `POST /portfolio` (`submit_details`, main.py lines 90-105):
400 when `name`, `school` or `major` is falsy, otherwise echo all fields. -/
def submit_details (details : Portfolio) : PostResult :=
  if !optStrTruthy details.name || !optStrTruthy details.school ||
      !optStrTruthy details.major then
    .error 400 "Name, school, and major are required fields."
  else
    .success "Details received successfully!"
      { name := details.name
        school := details.school
        major := details.major
        minor := details.minor
        hobbies := details.hobbies
        linkedin := details.linkedin
        github := details.github }

/-- A raw HTTP request as seen by handlers that ignore their input:
query parameters, headers and body. -/
structure RawRequest where
  query : List (String × String) := []
  headers : List (String × String) := []
  body : String := ""

/-- A redirect response: target URL and status code. -/
structure RedirectResponse where
  url : String
  status_code : Nat
deriving DecidableEq

/-- Handler of `GET /` (`redirect_to_main_page`, main.py lines 49-51). -/
def redirect_to_main_page (_ : RawRequest) : RedirectResponse :=
  { url := "/portfolio", status_code := 307 }

/-- A constant JSON body `{"message": ...}`. -/
structure MessageBody where
  message : String
deriving DecidableEq

/-- Handler of `GET /v1/portfolio` (`submit_details_v1`, main.py 108-109). -/
def submit_details_v1 (_ : RawRequest) : MessageBody :=
  { message := "API Version 1" }

/-- Handler of `GET /v2/portfolio` (`submit_details_v2`, main.py 112-113). -/
def submit_details_v2 (_ : RawRequest) : MessageBody :=
  { message := "API Version 2 with improved features!" }

/-- Modelled from the spec: the rate limiter implementation lives in the
third-party `slowapi` library; the repository only declares
`@limiter.limit("5/minute")` keyed by the client address (main.py line 54).
Per spec section 5 it is a per-client counter over a one-minute window.
`windowRequests prior c t` collects, among the already-made requests
`prior` (pairs of client address and timestamp in seconds, each timestamp
at most `t`), those made by client `c` strictly less than 60 seconds
before time `t`. -/
def windowRequests (prior : List (String × Nat)) (c : String) (t : Nat) :
    List (String × Nat) :=
  prior.filter fun p => p.1 == c && t < p.2 + 60

/-- Outcome of a routed `GET /portfolio` request: rejected by the rate
limiter with a JSON body `{"message": ...}`, or handled by
`submit_details_get`. -/
inductive GetRouteResult where
  | rateLimited (status : Nat) (message : String)
  | handled (res : GetResult)
deriving DecidableEq

/-- Modelled from the spec: a `GET /portfolio` request from client `c` at
time `t`, with the requests `prior` already made, is answered 429 by the
rate limiter (main.py lines 54 and 115-120) when it is at least the sixth
request from `c` inside the one-minute window; otherwise the handler runs. -/
def get_portfolio_route (prior : List (String × Nat)) (c : String) (t : Nat)
    (r : GetRequest) : GetRouteResult :=
  if 5 ≤ (windowRequests prior c t).length then
    .rateLimited 429 "Rate limit exceeded. Please try again later."
  else
    .handled (submit_details_get r)

/-- Modelled from the spec: run a chronological sequence of
`GET /portfolio` requests, each triple being client address, timestamp and
request data, accumulating every request into the limiter state. -/
def runTrace (prior : List (String × Nat)) :
    List (String × Nat × GetRequest) → List GetRouteResult
  | [] => []
  | (c, t, r) :: rest =>
      get_portfolio_route prior c t r :: runTrace (prior ++ [(c, t)]) rest

/-- A `GET /portfolio` request with no query parameters and no
`User-Agent` header. -/
def emptyGetRequest : GetRequest := {}

/-- The `data` object produced by `GET /portfolio` when every optional
field is missing: all placeholder defaults. -/
def placeholderData : PortfolioData :=
  { name := "Anonymous"
    school := "Not Specified"
    major := "Not Specified"
    minor := "Not Specified"
    hobbies := []
    linkedin := "Not Provided"
    github := "Not Provided" }

/-- Map a present-but-empty optional string to an absent one. -/
def blankToNone : Option String → Option String
  | none => none
  | some s => if s == "" then none else some s

/-- Replace every present-but-empty query parameter of a `GET /portfolio`
request by an absent one, leaving the `User-Agent` header untouched. -/
def dropBlankParams (r : GetRequest) : GetRequest :=
  { name := blankToNone r.name
    school := blankToNone r.school
    major := blankToNone r.major
    minor := blankToNone r.minor
    hobbies := blankToNone r.hobbies
    linkedin := blankToNone r.linkedin
    github := blankToNone r.github
    user_agent := r.user_agent }

/-! ### Helper lemmas -/

theorem isPrefixOf_iff_exists (p : List Char) :
    ∀ l : List Char, p.isPrefixOf l = true ↔ ∃ t, l = p ++ t := by
  induction p with
  | nil =>
      intro l
      simp [List.isPrefixOf]
  | cons a p ih =>
      intro l
      cases l with
      | nil =>
          simp [List.isPrefixOf]
      | cons b l =>
          simp only [List.isPrefixOf, Bool.and_eq_true, beq_iff_eq, ih,
            List.cons_append, List.cons.injEq]
          constructor
          · rintro ⟨rfl, t, rfl⟩
            exact ⟨t, rfl, rfl⟩
          · rintro ⟨t, rfl, rfl⟩
            exact ⟨rfl, t, rfl⟩

theorem listHasSubstr_iff_exists (p : List Char) :
    ∀ l : List Char, listHasSubstr p l = true ↔
      ∃ pre post, l = pre ++ p ++ post := by
  intro l
  induction l with
  | nil =>
      simp only [listHasSubstr, List.isEmpty_iff]
      constructor
      · rintro rfl
        exact ⟨[], [], rfl⟩
      · rintro ⟨pre, post, h⟩
        rcases List.append_eq_nil.mp h.symm with ⟨h1, h2⟩
        exact (List.append_eq_nil.mp h1).2
  | cons c rest ih =>
      simp only [listHasSubstr, Bool.or_eq_true, isPrefixOf_iff_exists, ih]
      constructor
      · rintro (⟨t, ht⟩ | ⟨pre, post, hp⟩)
        · exact ⟨[], t, by simp [ht]⟩
        · exact ⟨c :: pre, post, by simp [hp]⟩
      · rintro ⟨pre, post, hp⟩
        cases pre with
        | nil =>
            left
            exact ⟨post, by simpa using hp⟩
        | cons d pre =>
            right
            rcases List.cons.injEq .. ▸ hp with h
            simp only [List.cons_append, List.cons.injEq] at hp
            exact ⟨pre, post, hp.2⟩

theorem strContainsSubstr_iff (s pat : String) :
    strContainsSubstr s pat = true ↔
      ∃ pre post, s.toList = pre ++ pat.toList ++ post := by
  exact listHasSubstr_iff_exists pat.toList s.toList

theorem optStrTruthy_eq_false_iff (x : Option String) :
    optStrTruthy x = false ↔ (x = none ∨ x = some "") := by
  cases x with
  | none => simp [optStrTruthy]
  | some s =>
      simp only [optStrTruthy, Bool.not_eq_false', beq_iff_eq,
        Option.some.injEq, reduceCtorEq, false_or]

theorem strToLower_toList (s : String) :
    (strToLower s).toList = s.data.map Char.toLower := rfl

theorem bot_guard_iff (ua : Option String) :
    (optStrTruthy ua && strContainsSubstr (strToLower (ua.getD "")) "bot")
        = true ↔
      ∃ s, ua = some s ∧
        ∃ pre post, s.data.map Char.toLower = pre ++ "bot".toList ++ post := by
  cases ua with
  | none => simp [optStrTruthy]
  | some s =>
      simp only [optStrTruthy, Option.getD_some, Bool.and_eq_true,
        Bool.not_eq_true', beq_eq_false_iff_ne, ne_eq, strContainsSubstr_iff,
        strToLower_toList, Option.some.injEq, exists_eq_left']
      constructor
      · exact fun h => h.2
      · intro h
        refine ⟨?_, h⟩
        rintro rfl
        rcases h with ⟨pre, post, hp⟩
        simp only [show ("" : String).data = [] from rfl, List.map_nil] at hp
        exact absurd hp.symm (by simp)

theorem pyOr_blankToNone (x : Option String) (d : String) :
    pyOr (blankToNone x) d = pyOr x d := by
  cases x with
  | none => rfl
  | some s =>
      by_cases h : s == ""
      · simp [blankToNone, pyOr, h]
      · simp [blankToNone, pyOr, h]

theorem optStrTruthy_blankToNone (x : Option String) :
    optStrTruthy (blankToNone x) = optStrTruthy x := by
  cases x with
  | none => rfl
  | some s =>
      by_cases h : s == ""
      · simp [blankToNone, optStrTruthy, h]
      · simp [blankToNone, optStrTruthy, h]

/-! ### Claim theorems -/

/-- C1: `GET /portfolio` fails with 403 "Bots are not allowed" exactly when
the `User-Agent` header is present and its value contains the substring
"bot" case-insensitively; when the header is absent or does not contain
that substring, no 403 is raised. -/
theorem get_portfolio_bot_403_iff (r : GetRequest) :
    submit_details_get r = GetResult.error 403 "Bots are not allowed" ↔
      ∃ ua, r.user_agent = some ua ∧
        ∃ pre post, ua.data.map Char.toLower = pre ++ "bot".toList ++ post := by
  rw [submit_details_get]
  split
  · rename_i h
    exact iff_of_true rfl ((bot_guard_iff r.user_agent).mp h)
  · rename_i h
    exact iff_of_false (by simp) fun hc => h ((bot_guard_iff r.user_agent).mpr hc)

/-- C2: `POST /portfolio` fails with 400 "Name, school, and major are
required fields." exactly when at least one of `name`, `school`, `major`
is absent or the empty string. -/
theorem post_portfolio_400_iff (p : Portfolio) :
    submit_details p =
        PostResult.error 400 "Name, school, and major are required fields." ↔
      ((p.name = none ∨ p.name = some "") ∨
       (p.school = none ∨ p.school = some "") ∨
       (p.major = none ∨ p.major = some "")) := by
  rw [submit_details]
  split
  · rename_i h
    simp only [Bool.or_eq_true, Bool.not_eq_true', optStrTruthy_eq_false_iff] at h
    exact iff_of_true rfl (by tauto)
  · rename_i h
    simp only [Bool.or_eq_true, Bool.not_eq_true', optStrTruthy_eq_false_iff] at h
    exact iff_of_false (by simp) (by tauto)

/-- C3 counterexample: with the `hobbies` query parameter present but equal
to the empty string, the handler returns `data.hobbies = []`, not the
result `[""]` of splitting the parameter string on commas. -/
theorem get_empty_hobbies_counterexample :
    ¬ ((submit_details_get { hobbies := some "" }).getData.map
          PortfolioData.hobbies = some (pySplitComma "")) := by
  decide

/-- C3 amended: in a success response of `GET /portfolio`, `data.hobbies`
is the comma-split of the `hobbies` parameter (no trimming) when the
parameter is present and non-empty, and the empty sequence when the
parameter is absent or the empty string. -/
theorem get_hobbies_split (r : GetRequest) (d : PortfolioData)
    (h : (submit_details_get r).getData = some d) :
    d.hobbies =
      match r.hobbies with
      | none => []
      | some s => if s = "" then [] else pySplitComma s := by
  rw [submit_details_get] at h
  split at h
  · exact absurd h (by simp [GetResult.getData])
  · simp only [GetResult.getData, Option.some.injEq] at h
    subst h
    cases hh : r.hobbies with
    | none => simp [hh, optStrTruthy]
    | some s =>
        by_cases hs : s = ""
        · subst hs
          simp [hh, optStrTruthy]
        · simp [hh, optStrTruthy, hs]

/-- The `data` of the success response for `hobbies=reading,chess` and no
other parameters. -/
def hobbiesWitnessData : PortfolioData :=
  { placeholderData with hobbies := ["reading", "chess"] }

theorem get_hobbies_split_witness :
    hobbiesWitnessData.hobbies = pySplitComma "reading,chess" := by
  have h := get_hobbies_split { hobbies := some "reading,chess" }
    hobbiesWitnessData (by decide)
  simpa using h

/-- C4: in a success response of `GET /portfolio`, every absent optional
field is substituted by its fixed placeholder (`name` → "Anonymous";
`school`, `major`, `minor` → "Not Specified"; `linkedin`, `github` →
"Not Provided"); in particular a request with no query parameters yields
all placeholder defaults. -/
theorem get_missing_fields_placeholders (r : GetRequest) (d : PortfolioData)
    (h : (submit_details_get r).getData = some d) :
    (r.name = none → d.name = "Anonymous") ∧
    (r.school = none → d.school = "Not Specified") ∧
    (r.major = none → d.major = "Not Specified") ∧
    (r.minor = none → d.minor = "Not Specified") ∧
    (r.linkedin = none → d.linkedin = "Not Provided") ∧
    (r.github = none → d.github = "Not Provided") ∧
    (submit_details_get emptyGetRequest).getData = some placeholderData := by
  rw [submit_details_get] at h
  split at h
  · exact absurd h (by simp [GetResult.getData])
  · simp only [GetResult.getData, Option.some.injEq] at h
    subst h
    refine ⟨?_, ?_, ?_, ?_, ?_, ?_, by decide⟩ <;>
      (intro hn; simp [hn, pyOr])

theorem get_missing_fields_placeholders_witness :
    (submit_details_get emptyGetRequest).getData = some placeholderData :=
  (get_missing_fields_placeholders emptyGetRequest placeholderData
    (by decide)).2.2.2.2.2.2

/-- C5: `POST /portfolio` with non-empty `name`, `school` and `major`
returns the envelope whose `data` echoes every submitted field verbatim,
with no placeholder substitution. -/
theorem post_echoes_verbatim (p : Portfolio)
    (hn : optStrTruthy p.name = true) (hs : optStrTruthy p.school = true)
    (hm : optStrTruthy p.major = true) :
    submit_details p = PostResult.success "Details received successfully!" p := by
  have hc : ¬(!optStrTruthy p.name || !optStrTruthy p.school ||
      !optStrTruthy p.major) = true := by simp [hn, hs, hm]
  rw [submit_details, if_neg hc]

theorem post_echoes_verbatim_witness :
    optStrTruthy (some "Ada") = true ∧
    submit_details
        { name := some "Ada", school := some "MIT", major := some "CS" } =
      PostResult.success "Details received successfully!"
        { name := some "Ada", school := some "MIT", major := some "CS" } :=
  ⟨by decide, post_echoes_verbatim
    { name := some "Ada", school := some "MIT", major := some "CS" }
    (by decide) (by decide) (by decide)⟩

/-- C6: a routed `GET /portfolio` request is answered 429 with message
"Rate limit exceeded. Please try again later." exactly when, counting the
request itself, more than 5 requests from the same client address fall
within the one-minute window; in particular the 6th back-to-back call from
one client is answered 429 while the first five are handled. -/
theorem get_rate_limit_429_iff :
    (∀ (prior : List (String × Nat)) (c : String) (t : Nat) (r : GetRequest),
        get_portfolio_route prior c t r =
            GetRouteResult.rateLimited 429
              "Rate limit exceeded. Please try again later." ↔
          5 < (windowRequests prior c t).length + 1) ∧
    runTrace [] (List.replicate 6 ("1.2.3.4", 0, emptyGetRequest)) =
      List.replicate 5
          (GetRouteResult.handled (submit_details_get emptyGetRequest)) ++
        [GetRouteResult.rateLimited 429
          "Rate limit exceeded. Please try again later."] := by
  constructor
  · intro prior c t r
    rw [get_portfolio_route]
    split
    · rename_i h
      exact iff_of_true rfl (Nat.lt_succ_of_le h)
    · rename_i h
      exact iff_of_false (by simp) fun hlt => h (Nat.lt_succ_iff.mp hlt)
  · decide

/-- C7: `GET /` always answers a temporary redirect, status 307, to
`/portfolio`. -/
theorem root_redirects_307 (req : RawRequest) :
    redirect_to_main_page req =
      { url := "/portfolio", status_code := 307 } := rfl

/-- C8: `GET /v1/portfolio` and `GET /v2/portfolio` return their fixed
constant messages regardless of the request. -/
theorem versioned_endpoints_constant (req : RawRequest) :
    submit_details_v1 req = { message := "API Version 1" } ∧
    submit_details_v2 req =
      { message := "API Version 2 with improved features!" } := ⟨rfl, rfl⟩

/-- C9: every success response of `GET /portfolio` carries the response
header `X-Robots-Tag: noindex, nofollow` in addition to the
`{message, data}` envelope. -/
theorem get_success_robots_header (r : GetRequest) (m : String)
    (d : PortfolioData) (hs : List (String × String))
    (h : submit_details_get r = GetResult.success m d hs) :
    ("X-Robots-Tag", "noindex, nofollow") ∈ hs ∧
      m = "GET request received successfully!" := by
  rw [submit_details_get] at h
  split at h
  · exact absurd h (by simp)
  · simp only [GetResult.success.injEq] at h
    obtain ⟨hm, _, hh⟩ := h
    subst hh
    exact ⟨by simp, hm.symm⟩

theorem get_success_robots_header_witness :
    ("X-Robots-Tag", "noindex, nofollow") ∈
        [(("X-Robots-Tag" : String), ("noindex, nofollow" : String))] ∧
      "GET request received successfully!" =
        "GET request received successfully!" :=
  get_success_robots_header emptyGetRequest
    "GET request received successfully!" placeholderData
    [("X-Robots-Tag", "noindex, nofollow")] (by decide)

/-- C10: on `GET /portfolio`, a query parameter that is present but equal
to the empty string is treated exactly like an absent parameter: the
response is unchanged when every blank parameter is dropped. -/
theorem get_blank_params_as_absent (r : GetRequest) :
    submit_details_get (dropBlankParams r) = submit_details_get r := by
  obtain ⟨n, s, m, mi, h, l, g, ua⟩ := r
  rw [submit_details_get, submit_details_get]
  simp only [dropBlankParams]
  by_cases hua : (optStrTruthy ua &&
      strContainsSubstr (strToLower (ua.getD "")) "bot") = true
  · rw [if_pos hua, if_pos hua]
  · rw [if_neg hua, if_neg hua]
    simp only [pyOr_blankToNone, optStrTruthy_blankToNone]
    cases h with
    | none => rfl
    | some hs =>
        by_cases hhs : hs == ""
        · have he : hs = "" := by simpa using hhs
          subst he
          rfl
        · simp [blankToNone, optStrTruthy, hhs]
